import Mathlib

/-!
Verification of the `my-database-sqlite` facade (`src/index.js`).

The facade translates structured calls (table name, column-definition
strings, row objects) into SQL statement strings plus positional parameter
lists, and adapts the engine's callbacks into promises.  We embed:

* the SQL string assembly of each method, character-faithful to the source
  (including the missing space before `VALUES` in `insertRows`);
* the per-method callback logic (`error => error ? reject : resolve`),
  as functions from the engine's reported error to an `Except` outcome;
* `Promise.all` over a batch of settled sub-results;
* a state model of the external embedded SQLite engine (tables with a
  declared schema and stored rows), for the claims whose truth rests on
  engine behaviour the spec documents (parameter binding, `IF NOT EXISTS`,
  `PRAGMA table_info` on an unknown table).

Rows are association lists `List (String × α)`: a JavaScript object's keys
are distinct and ordered, `Object.keys`/`Object.values` enumerate them in
that shared order.  The value type `α` is kept abstract: the facade never
inspects values, it only forwards them as the positional parameter list.
-/

namespace MyDatabase

/-! ## Static members (source lines 8-12, 31-40) -/

/-- static `#DATABASE_FILE_PATH = join(__dirname, 'my_database.db')`
(source line 8).  The module directory `__dirname` is a parameter. -/
def DATABASE_FILE_PATH (dirname : String) : String :=
  dirname ++ "/my_database.db"

/-- static getter `DatabaseFilePath` (source lines 31-33): the public name
under which the default path is exposed. -/
def DatabaseFilePath (dirname : String) : String :=
  DATABASE_FILE_PATH dirname

/-- static `#ALTER_OPERATION = { ADD: 'ADD', DROP: 'DROP' }` (source lines
9-12); `Object.values` enumerates it in insertion order. -/
def allowedOperations : List String := ["ADD", "DROP"]

/-- JavaScript property access on the class object, as performed by the
constructor (source line 20).  The class exposes the static getters
`DatabaseFilePath` and `AlterOperation`; any other property name — in
particular `DATABASE_FILE_PATH`, the name the constructor actually reads —
is not defined on the class and evaluates to `undefined` (`none`). -/
def staticStringProperty (dirname : String) (prop : String) : Option String :=
  if prop = "DatabaseFilePath" then some (DatabaseFilePath dirname) else none

/-- Source line 20: `new Database(filePath || MyDatabase.DATABASE_FILE_PATH)`.
The argument the `Database` constructor receives: the caller's `filePath`
when it is present and truthy (a non-empty string), otherwise the value of
the property lookup `MyDatabase.DATABASE_FILE_PATH`.  `none` models
JavaScript `undefined`. -/
def constructorEnginePath (dirname : String) (filePath : Option String) :
    Option String :=
  match filePath with
  | some p => if p = "" then staticStringProperty dirname "DATABASE_FILE_PATH" else some p
  | none => staticStringProperty dirname "DATABASE_FILE_PATH"

/-- Modelled from the spec: the `sqlite3` engine opens an in-memory database
exactly when the filename argument is the string `:memory:`. -/
def opensInMemory (enginePath : Option String) : Prop :=
  enginePath = some ":memory:"

instance (p : Option String) : Decidable (opensInMemory p) := by
  unfold opensInMemory; infer_instance

/-! ## Callback adaptation (error propagation)

Every method hands the engine a callback `error => ...`.  We model the
engine's report as `Option String` (`some e` = an error whose text is `e`)
and each callback as the function from that report (plus, for the `all`
based methods, the returned rows) to the settled state of the promise the
method returned. -/

/-- The wrapping `new Error(` followed by a template literal of the engine
error `)` used by the `run`-based callbacks: stringifying an `Error` whose
message is `e` yields the text `Error: e`. -/
def errorWrap (e : String) : String :=
  "Error: " ++ e

/-- Callback of `createTable` (source lines 50-55). -/
def createTableCallback (error : Option String) : Except String Unit :=
  match error with
  | some e => .error (errorWrap e)
  | none => .ok ()

/-- Callback of `dropTable` (source lines 66-71). -/
def dropTableCallback (error : Option String) : Except String Unit :=
  match error with
  | some e => .error (errorWrap e)
  | none => .ok ()

/-- Callback of each per-column `ALTER TABLE` statement (source lines 93-98). -/
def alterTableStmtCallback (error : Option String) : Except String Unit :=
  match error with
  | some e => .error (errorWrap e)
  | none => .ok ()

/-- Callback of each per-row `INSERT` statement (source lines 122-127). -/
def insertRowStmtCallback (error : Option String) : Except String Unit :=
  match error with
  | some e => .error (errorWrap e)
  | none => .ok ()

/-- Callback of `updateRow` (source lines 147-152). -/
def updateRowCallback (error : Option String) : Except String Unit :=
  match error with
  | some e => .error (errorWrap e)
  | none => .ok ()

/-- Callback of `deleteRows` (source lines 164-169). -/
def deleteRowsCallback (error : Option String) : Except String Unit :=
  match error with
  | some e => .error (errorWrap e)
  | none => .ok ()

/-- Callback of `selectRows` (source lines 183-188): rejects with the raw
engine error, resolves with the returned rows. -/
def selectRowsCallback (α : Type) (error : Option String)
    (rows : List (List (String × Option α))) :
    Except String (List (List (String × Option α))) :=
  match error with
  | some e => .error e
  | none => .ok rows

/-- Callback of `getTableColumns` (source lines 219-223): rejects with the
raw engine error, else resolves with `columns.map(column => ({ name, type }))`. -/
def getTableColumnsCallback (error : Option String)
    (columns : List (String × String)) :
    Except String (List (String × String)) :=
  match error with
  | some e => .error e
  | none => .ok (columns.map (fun column => (column.1, column.2)))

/-- Callback of the catalog query inside `getAllTables` (source lines
198-208).  On an engine error it calls `reject(error)` first; the source
has no `else`, but a promise settles once, so the settled state on an error
is the rejection with the raw engine error.  On success it resolves with
`{ tableName, columns }` for each catalog entry, fetching the columns. -/
def getAllTablesCallback (error : Option String) (catalog : List String)
    (columnsOf : String → List (String × String)) :
    Except String (List (String × List (String × String))) :=
  match error with
  | some e => .error e
  | none => .ok (catalog.map (fun tableName => (tableName, columnsOf tableName)))

/-- Callback of the startup pragma (source lines 22-25): an error is passed
to `console.error` and otherwise ignored; construction proceeds either way. -/
def constructorPragmaOutcome (_error : Option String) : Except String Unit :=
  .ok ()

/-! ## Promise.all -/

/-- `Promise.all` over a batch of already-settled void sub-results: resolves
when every sub-result resolved, rejects with a failing sub-result's error
as soon as one rejected. -/
def promiseAll : List (Except String Unit) → Except String Unit
  | [] => .ok ()
  | .error e :: _ => .error e
  | .ok () :: rs => promiseAll rs

@[simp] theorem promiseAll_nil : promiseAll [] = .ok () := rfl

@[simp] theorem promiseAll_cons_error (e : String) (rs : List (Except String Unit)) :
    promiseAll (.error e :: rs) = .error e := rfl

@[simp] theorem promiseAll_cons_ok (rs : List (Except String Unit)) :
    promiseAll (.ok () :: rs) = promiseAll rs := rfl

theorem promiseAll_ok_iff (rs : List (Except String Unit)) :
    promiseAll rs = .ok () ↔ ∀ r ∈ rs, r = .ok () := by
  induction rs with
  | nil => simp
  | cons r rs ih =>
    cases r with
    | error e => simp
    | ok u => cases u; simp [ih]

theorem promiseAll_error_mem (rs : List (Except String Unit)) (e : String)
    (h : promiseAll rs = .error e) : Except.error e ∈ rs := by
  induction rs with
  | nil => simp [promiseAll] at h
  | cons r rs ih =>
    cases r with
    | error e₂ =>
      simp [promiseAll] at h
      simp [h]
    | ok u =>
      cases u
      simp [promiseAll] at h
      exact List.mem_cons_of_mem _ (ih h)

/-! ## SQL string assembly -/

/-- Source line 50: the statement emitted by `createTable`. -/
def createTableQuery (tableName : String) (columns : List String) : String :=
  "CREATE TABLE IF NOT EXISTS " ++ tableName ++ " (" ++ String.intercalate ", " columns ++ ")"

/-- Source line 66: the statement emitted by `dropTable`. -/
def dropTableQuery (tableName : String) : String :=
  "DROP TABLE IF EXISTS " ++ tableName

/-- Source line 90: the per-column statement emitted by `alterTable`. -/
def alterTableQuery (tableName operation columnDef : String) : String :=
  "ALTER TABLE " ++ tableName ++ " " ++ operation ++ " COLUMN " ++ columnDef

/-- Source lines 118-119: the statement emitted by `insertRows` for one row.
Character-faithful: the two template literals are concatenated with no
space between the `)` closing the column list and `VALUES`.  The query is
assembled from the row's keys alone; the values never appear in it. -/
def insertQuery (tableName : String) (keys : List String) : String :=
  "INSERT INTO " ++ tableName ++ " (" ++ String.intercalate ", " keys ++ ")"
    ++ "VALUES (" ++ String.intercalate ", " (keys.map (fun _ => "?")) ++ ")"

/-- Source lines 115-119 applied to every row of the batch: each row
contributes the pair of its generated SQL text (from `Object.keys`) and its
positional parameter list (from `Object.values`), handed to `db.run`
separately. -/
def insertRowsStatements (α : Type) (tableName : String)
    (rows : List (List (String × α))) : List (String × List α) :=
  rows.map (fun row => (insertQuery tableName (row.map Prod.fst), row.map Prod.snd))

/-- Source lines 85-90 and 103-105: `alterTable` first validates the
operation — an invalid one throws synchronously (`Except.error`) before any
statement text is even built — then maps each column definition to its own
`ALTER TABLE` statement (an empty batch yields no statements). -/
def alterTableStatements (tableName operation : String) (columns : List String) :
    Except String (List String) :=
  if operation ∈ allowedOperations then
    .ok (columns.map (fun columnDef => alterTableQuery tableName operation columnDef))
  else
    .error ("Invalid operation. The operation must be one of: "
      ++ String.intercalate ", " allowedOperations)

/-! ## Engine model

Modelled from the spec: the external collaborator is "an embedded SQL
engine supplying file/in-memory storage, SQL execution, parameter binding,
and schema catalog queries (`sqlite_master`-equivalent) and per-table
column introspection (`PRAGMA table_info`-equivalent)".  The engine is not
code of this repository; we model its state and the semantics of the
statement shapes the facade emits, at the structured level corresponding
to the generated SQL text.  Values are opaque (`α`): the engine binds each
positional parameter to its placeholder as data, so stored values are
exactly the bound parameters. -/

/-- One table inside the engine: its name, its declared columns in
declaration order (name and declared type), and its stored rows.  A stored
row is full-width, one entry per declared column in declared order; `none`
is SQL `NULL`. -/
structure EngineTable (α : Type) where
  name : String
  schema : List (String × String)
  rows : List (List (String × Option α))
  deriving Repr, DecidableEq

/-- The engine's whole state: its tables, in creation order (the catalog's
native order). -/
structure DBState (α : Type) where
  tables : List (EngineTable α)
  deriving Repr, DecidableEq

/-- The catalog lookup the engine performs for a statement naming a table. -/
def DBState.findTable (s : DBState α) (tableName : String) :
    Option (EngineTable α) :=
  s.tables.find? (fun tbl => tbl.name = tableName)

/-- Modelled from the spec: engine semantics of the facade's
`CREATE TABLE IF NOT EXISTS tableName (columnDefs)` statement.  If a table
of that name exists the statement succeeds without changing anything;
otherwise a fresh empty table with the given schema is appended to the
catalog. -/
def execCreateTable (s : DBState α) (tableName : String)
    (schema : List (String × String)) : DBState α × Except String Unit :=
  match s.findTable tableName with
  | some _ => (s, .ok ())
  | none =>
    (⟨s.tables ++ [⟨tableName, schema, []⟩]⟩, .ok ())

/-- Modelled from the spec: engine semantics of the facade's
`INSERT INTO tableName (keys)VALUES (?, ...)` statement with the positional
parameter list `params` bound to the placeholders.  The engine errors on an
unknown table, an unknown column or a placeholder/parameter count mismatch;
otherwise it appends a full-width row holding, for each declared column,
the parameter bound for it (by key position) or `NULL`.  Binding is pure
data passing: the stored value is the bound parameter, verbatim. -/
def execInsert (s : DBState α) (tableName : String) (keys : List String)
    (params : List α) : DBState α × Except String Unit :=
  match s.findTable tableName with
  | none => (s, .error ("SQLITE_ERROR: no such table: " ++ tableName))
  | some tbl =>
    if (keys.all (fun k => tbl.schema.any (fun c => c.1 = k)))
        && (keys.length == params.length) then
      let newRow := tbl.schema.map (fun c => (c.1, (keys.zip params).lookup c.1))
      (⟨s.tables.map (fun tb =>
          if tb.name = tableName then ⟨tb.name, tb.schema, tb.rows ++ [newRow]⟩ else tb)⟩,
        .ok ())
    else (s, .error "SQLITE_ERROR: no such column")

/-- Modelled from the spec: engine semantics of the facade's
`SELECT * FROM tableName ` statement (no condition): every stored row of
the table, in storage order. -/
def execSelectAll (s : DBState α) (tableName : String) :
    Except String (List (List (String × Option α))) :=
  match s.findTable tableName with
  | none => .error ("SQLITE_ERROR: no such table: " ++ tableName)
  | some tbl => .ok tbl.rows

/-- Modelled from the spec: engine semantics of
`PRAGMA table_info(tableName);` — the declared columns of the table in
declared order, or the empty row set when no such table exists (not an
error). -/
def pragmaTableInfo (s : DBState α) (tableName : String) :
    List (String × String) :=
  match s.findTable tableName with
  | none => []
  | some tbl => tbl.schema

/-! ## Drivers: a facade call against the engine

Each driver composes the facade's statement assembly with the engine model
and `promiseAll`, returning the engine state after the call together with
the observable outcome.  A call can also throw synchronously, before any
statement reaches the engine. -/

/-- The observable outcome of calling a facade method: a synchronous throw,
or a returned promise that settles to `r`. -/
inductive CallResult (ε α : Type) where
  | thrown (e : ε)
  | deferred (r : Except ε α)
  deriving Repr

/-- Issue a batch of independent statements (each runs through `exec`),
collecting each statement's settled sub-result.  `exec` is abstract: the
drivers below that do not depend on a statement's engine semantics are
quantified over it. -/
def runStatements (exec : σ → String → σ × Except String Unit) :
    σ → List String → σ × List (Except String Unit)
  | s, [] => (s, [])
  | s, q :: qs =>
    let (s₁, r) := exec s q
    let (s₂, rs) := runStatements exec s₁ qs
    (s₂, r :: rs)

/-- `alterTable` (source lines 84-106) run against an abstract engine: an
invalid operation throws before `exec` sees anything; otherwise every
per-column statement is issued and the returned promise is the
`Promise.all` of the sub-results. -/
def alterTableRun (exec : σ → String → σ × Except String Unit) (s : σ)
    (tableName operation : String) (columns : List String) :
    σ × CallResult String Unit :=
  match alterTableStatements tableName operation columns with
  | .error e => (s, .thrown e)
  | .ok stmts =>
    let (s₁, rs) := runStatements exec s stmts
    (s₁, .deferred (promiseAll rs))

/-- `insertRows` (source lines 114-132) run against the engine model: each
row's generated statement is executed with its own positional parameter
list, and the returned promise is the `Promise.all` of the per-row
sub-results. -/
def insertRowsRun (s : DBState α) (tableName : String)
    (rows : List (List (String × α))) : DBState α × Except String Unit :=
  let step := fun (acc : DBState α × List (Except String Unit)) row =>
    let (s₁, r) := execInsert acc.1 tableName (row.map Prod.fst) (row.map Prod.snd)
    (s₁, acc.2 ++ [r])
  let (s₁, rs) := rows.foldl step (s, [])
  (s₁, promiseAll rs)

/-- `createTable` (source lines 48-57) run against the engine model.  The
`schema` is the engine's parse of the raw column-definition strings, which
the facade passes through verbatim inside `createTableQuery`. -/
def createTableRun (s : DBState α) (tableName : String)
    (schema : List (String × String)) : DBState α × Except String Unit :=
  execCreateTable s tableName schema

/-- `getTableColumns` (source lines 217-226) run against the engine model:
the pragma rows adapted by the callback's `{ name, type }` projection. -/
def getTableColumnsRun (s : DBState α) (tableName : String) :
    Except String (List (String × String)) :=
  getTableColumnsCallback none (pragmaTableInfo s tableName)

/-- `selectRows` (source lines 179-190) with no condition, run against the
engine model. -/
def selectRowsRun (s : DBState α) (tableName : String) :
    Except String (List (List (String × Option α))) :=
  execSelectAll s tableName

/-! ## Helper lemmas -/

@[simp] theorem runStatements_nil {σ : Type} (exec : σ → String → σ × Except String Unit)
    (s : σ) : runStatements exec s [] = (s, []) := rfl

theorem runStatements_length {σ : Type} (exec : σ → String → σ × Except String Unit)
    (s : σ) (qs : List String) :
    (runStatements exec s qs).2.length = qs.length := by
  induction qs generalizing s with
  | nil => rfl
  | cons q qs ih => simp [runStatements, ih]

theorem zip_keys_values {α : Type} (row : List (String × α)) :
    (row.map Prod.fst).zip (row.map Prod.snd) = row := by
  induction row with
  | nil => rfl
  | cons kv row ih => simp [ih]

theorem lookup_of_mem_nodup {α : Type} (row : List (String × α)) (k : String) (v : α)
    (hmem : (k, v) ∈ row) (hnd : (row.map Prod.fst).Nodup) :
    row.lookup k = some v := by
  induction row with
  | nil => simp at hmem
  | cons kv row ih =>
    rcases List.mem_cons.mp hmem with heq | htail
    · subst heq
      simp [List.lookup]
    · simp only [List.map_cons, List.nodup_cons] at hnd
      have hk : k ≠ kv.1 := by
        intro hkk
        exact hnd.1 (List.mem_map.mpr ⟨(k, v), htail, by simp [hkk]⟩)
      have hbeq : (k == kv.1) = false := by
        simp [hk]
      simp only [List.lookup, hbeq]
      exact ih htail hnd.2

theorem lookup_map_of_key_mem {β : Type} (schema : List (String × String))
    (f : String → β) (k : String) (hk : ∃ c ∈ schema, c.1 = k) :
    (schema.map (fun c => (c.1, f c.1))).lookup k = some (f k) := by
  induction schema with
  | nil => simp at hk
  | cons c cs ih =>
    by_cases h : k = c.1
    · subst h
      simp [List.lookup]
    · have hbeq : (k == c.1) = false := by simp [h]
      simp only [List.map_cons, List.lookup, hbeq]
      apply ih
      rcases hk with ⟨c₂, hc₂, hck⟩
      rcases List.mem_cons.mp hc₂ with heq | htail
      · exact absurd (heq ▸ hck).symm h
      · exact ⟨c₂, htail, hck⟩

theorem findTable_after_insert {α : Type} (tables : List (EngineTable α))
    (tableName : String) (newRow : List (String × Option α)) (tbl : EngineTable α)
    (h : tables.find? (fun tb => tb.name = tableName) = some tbl) :
    (tables.map (fun tb =>
        if tb.name = tableName then ⟨tb.name, tb.schema, tb.rows ++ [newRow]⟩ else tb)).find?
        (fun tb => tb.name = tableName)
      = some ⟨tbl.name, tbl.schema, tbl.rows ++ [newRow]⟩ := by
  induction tables with
  | nil => simp at h
  | cons tb tbs ih =>
    by_cases hname : tb.name = tableName
    · rw [List.find?_cons_of_pos _ (by simp [hname])] at h
      cases h
      simp only [List.map_cons, if_pos hname]
      rw [List.find?_cons_of_pos _ (by simp [hname])]
    · rw [List.find?_cons_of_neg _ (by simp [hname])] at h
      simp only [List.map_cons, if_neg hname]
      rw [List.find?_cons_of_neg _ (by simp [hname])]
      exact ih h

/-! ## Claim theorems -/

/-- Claim C1: for every table name and every row mapping, `insertRows`
builds, for each row of the batch, the statement
`INSERT INTO tableName (k1, k2, ...)VALUES (?, ?, ...)` whose column list
and placeholder list follow the row's key order with exactly one `?` per
key (the placeholder list is `replicate row.length "?"`), and the row's
values are passed as the separate positional parameter list; the SQL text
is a function of the keys alone, so two rows with the same keys and
different values yield the identical statement text — values are never
concatenated into the SQL. -/
theorem c1_insert_statement_shape {α : Type} (tableName : String)
    (rows : List (List (String × α))) :
    insertRowsStatements α tableName rows
        = rows.map (fun row =>
            (insertQuery tableName (row.map Prod.fst), row.map Prod.snd))
    ∧ (∀ row ∈ rows,
        insertQuery tableName (row.map Prod.fst)
          = "INSERT INTO " ++ tableName ++ " ("
              ++ String.intercalate ", " (row.map Prod.fst) ++ ")"
              ++ "VALUES ("
              ++ String.intercalate ", " (List.replicate row.length "?") ++ ")")
    ∧ (∀ rowA rowB : List (String × α), rowA.map Prod.fst = rowB.map Prod.fst →
        insertQuery tableName (rowA.map Prod.fst)
          = insertQuery tableName (rowB.map Prod.fst)) := by
  refine ⟨rfl, ?_, ?_⟩
  · intro row _
    have hph : ∀ (l : List String),
        l.map (fun _ => ("?" : String)) = List.replicate l.length ("?" : String) := by
      intro l
      induction l with
      | nil => rfl
      | cons x xs ih => simp [ih, List.replicate_succ]
    simp [insertQuery, hph]
  · intro rowA rowB hAB
    rw [hAB]

/-- Witness for C1 at a concrete batch: one row whose value embeds a double
quote and SQL text; the generated statement and parameter list are exactly
as the claim describes, with the value absent from the SQL text. -/
theorem c1_insert_statement_shape_witness :
    insertRowsStatements String "users"
        [[("name", "Ana\", 0); DROP TABLE users; --"), ("age", "30")]]
      = [("INSERT INTO users (name, age)VALUES (?, ?)",
          ["Ana\", 0); DROP TABLE users; --", "30"])] := by
  rw [(c1_insert_statement_shape "users"
    [[("name", "Ana\", 0); DROP TABLE users; --"), ("age", "30")]]).1]
  decide

/-- Claim C10: `insertRows` with zero row arguments builds no statement at
all and its aggregate promise (`Promise.all` over the empty batch) resolves
immediately, leaving the engine state unchanged. -/
theorem c10_insert_empty_batch {α : Type} (s : DBState α) (tableName : String) :
    insertRowsStatements α tableName [] = []
    ∧ insertRowsRun s tableName [] = (s, .ok ()) :=
  ⟨rfl, rfl⟩

/-- Claim C4: when the engine reports an execution error `e` for an issued
statement, every method's deferred result rejects — the `run`-based
callbacks (`createTable`, `dropTable`, the per-column `alterTable`
statement, the per-row `insertRows` statement, `updateRow`, `deleteRows`)
reject with the wrapped error text, `selectRows`, `getTableColumns` and
`getAllTables` (whose catalog query rejects first, and a promise settles
once) reject with the raw engine error; the only exception is the
constructor's foreign-key pragma, whose failure is logged and ignored so
construction still succeeds. -/
theorem c4_engine_errors_propagate {α : Type} (e : String)
    (rows : List (List (String × Option α)))
    (columns : List (String × String)) (catalog : List String)
    (columnsOf : String → List (String × String)) :
    createTableCallback (some e) = .error (errorWrap e)
    ∧ dropTableCallback (some e) = .error (errorWrap e)
    ∧ alterTableStmtCallback (some e) = .error (errorWrap e)
    ∧ insertRowStmtCallback (some e) = .error (errorWrap e)
    ∧ updateRowCallback (some e) = .error (errorWrap e)
    ∧ deleteRowsCallback (some e) = .error (errorWrap e)
    ∧ selectRowsCallback α (some e) rows = .error e
    ∧ getTableColumnsCallback (some e) columns = .error e
    ∧ getAllTablesCallback (some e) catalog columnsOf = .error e
    ∧ constructorPragmaOutcome (some e) = .ok () :=
  ⟨rfl, rfl, rfl, rfl, rfl, rfl, rfl, rfl, rfl, rfl⟩

/-- Claim C5: an operation outside the allowed set makes `alterTable` throw
synchronously — the call returns `thrown` with the validation message, no
statement reaches the engine (`exec` is arbitrary and never applied) and
the engine state is returned unchanged. -/
theorem c5_invalid_operation_throws {σ : Type}
    (exec : σ → String → σ × Except String Unit) (s : σ)
    (tableName operation : String) (columns : List String)
    (hop : operation ∉ allowedOperations) :
    alterTableRun exec s tableName operation columns
      = (s, .thrown ("Invalid operation. The operation must be one of: "
          ++ String.intercalate ", " allowedOperations)) := by
  unfold alterTableRun alterTableStatements
  simp [hop]

/-- Witness for C5: the operation `MODIFY` (not in `{ADD, DROP}`) throws
against a statement-logging engine that records nothing. -/
theorem c5_invalid_operation_throws_witness :
    "MODIFY" ∉ allowedOperations
    ∧ alterTableRun (fun (s : List String) q => (s ++ [q], .ok ()))
        [] "users" "MODIFY" ["age INTEGER"]
      = ([], .thrown ("Invalid operation. The operation must be one of: "
          ++ String.intercalate ", " allowedOperations)) :=
  ⟨by decide,
    c5_invalid_operation_throws (fun (s : List String) q => (s ++ [q], .ok ()))
      [] "users" "MODIFY" ["age INTEGER"] (by decide)⟩

/-- Claim C6: with a valid operation and zero column definitions,
`alterTable` resolves successfully while issuing no SQL statement — for an
arbitrary engine `exec` the state comes back unchanged and the deferred
result is `ok`. -/
theorem c6_alter_no_columns_noop {σ : Type}
    (exec : σ → String → σ × Except String Unit) (s : σ)
    (tableName operation : String) (hop : operation ∈ allowedOperations) :
    alterTableStatements tableName operation [] = .ok []
    ∧ alterTableRun exec s tableName operation []
        = (s, .deferred (.ok ())) := by
  constructor
  · unfold alterTableStatements
    simp [hop]
  · unfold alterTableRun alterTableStatements
    simp [hop]

/-- Witness for C6: `ADD` with no columns against a statement-logging
engine: nothing is logged and the promise resolves. -/
theorem c6_alter_no_columns_noop_witness :
    "ADD" ∈ allowedOperations
    ∧ (alterTableStatements "users" "ADD" [] = .ok []
        ∧ alterTableRun (fun (s : List String) q => (s ++ [q], .ok ()))
            [] "users" "ADD" [] = ([], .deferred (.ok ()))) :=
  ⟨by decide,
    c6_alter_no_columns_noop (fun (s : List String) q => (s ++ [q], .ok ()))
      [] "users" "ADD" (by decide)⟩

/-- Claim C7: with a valid operation and a non-empty column-definition
list, `alterTable` emits exactly one `ALTER TABLE tableName operation
COLUMN columnDef` statement per column definition, in order; the call's
deferred result is the `Promise.all` of the per-statement sub-results,
which resolves exactly when every sub-statement resolved and otherwise
rejects with the error of a failing sub-statement. -/
theorem c7_alter_per_column_statements {σ : Type}
    (exec : σ → String → σ × Except String Unit) (s : σ)
    (tableName operation : String) (columns : List String)
    (hop : operation ∈ allowedOperations) (_hcols : columns ≠ []) :
    ∃ s₁ rs,
      runStatements exec s
          (columns.map (fun columnDef => alterTableQuery tableName operation columnDef))
        = (s₁, rs)
      ∧ alterTableStatements tableName operation columns
          = .ok (columns.map (fun columnDef =>
              alterTableQuery tableName operation columnDef))
      ∧ alterTableRun exec s tableName operation columns
          = (s₁, .deferred (promiseAll rs))
      ∧ rs.length = columns.length
      ∧ (promiseAll rs = .ok () ↔ ∀ r ∈ rs, r = .ok ())
      ∧ (∀ e, promiseAll rs = .error e → Except.error e ∈ rs) := by
  have hstmts : alterTableStatements tableName operation columns
      = .ok (columns.map (fun columnDef =>
          alterTableQuery tableName operation columnDef)) := by
    unfold alterTableStatements
    simp [hop]
  rcases hrun : runStatements exec s
      (columns.map (fun columnDef => alterTableQuery tableName operation columnDef))
    with ⟨s₁, rs⟩
  refine ⟨s₁, rs, rfl, hstmts, ?_, ?_, ?_, ?_⟩
  · simp only [alterTableRun, hstmts, hrun]
  · have := runStatements_length exec s
      (columns.map (fun columnDef => alterTableQuery tableName operation columnDef))
    rw [hrun] at this
    simpa using this
  · exact promiseAll_ok_iff rs
  · intro e he
    exact promiseAll_error_mem rs e he

/-- Witness for C7: two column definitions against a statement-logging
engine whose second statement fails — both statements are issued in order
and the aggregate rejects with the failing statement's error. -/
theorem c7_alter_per_column_statements_witness :
    "ADD" ∈ allowedOperations ∧ (["age INTEGER", "bad col"] : List String) ≠ []
    ∧ ∃ s₁ rs,
        runStatements
            (fun (s : List String) q =>
              (s ++ [q], if q = "ALTER TABLE users ADD COLUMN bad col"
                then .error "Error: SQLITE_ERROR: near col" else .ok ()))
            [] (["age INTEGER", "bad col"].map
              (fun columnDef => alterTableQuery "users" "ADD" columnDef))
          = (s₁, rs)
        ∧ alterTableStatements "users" "ADD" ["age INTEGER", "bad col"]
            = .ok (["age INTEGER", "bad col"].map
                (fun columnDef => alterTableQuery "users" "ADD" columnDef))
        ∧ alterTableRun
            (fun (s : List String) q =>
              (s ++ [q], if q = "ALTER TABLE users ADD COLUMN bad col"
                then .error "Error: SQLITE_ERROR: near col" else .ok ()))
            [] "users" "ADD" ["age INTEGER", "bad col"]
          = (s₁, .deferred (promiseAll rs))
        ∧ rs.length = (["age INTEGER", "bad col"] : List String).length
        ∧ (promiseAll rs = .ok () ↔ ∀ r ∈ rs, r = .ok ())
        ∧ (∀ e, promiseAll rs = .error e → Except.error e ∈ rs) :=
  ⟨by decide, by decide,
    c7_alter_per_column_statements
      (fun (s : List String) q =>
        (s ++ [q], if q = "ALTER TABLE users ADD COLUMN bad col"
          then .error "Error: SQLITE_ERROR: near col" else .ok ()))
      [] "users" "ADD" ["age INTEGER", "bad col"] (by decide) (by decide)⟩

/-- Claim C3 counterexample: at the concrete module directory
`/app/module`, constructing without a file path does not open an in-memory
database — the fallback expression `MyDatabase.DATABASE_FILE_PATH` reads a
static property the class does not define (its getter is named
`DatabaseFilePath`), so the engine receives `undefined` (`none`), which is
neither `:memory:` nor the default database file path. -/
theorem c3_no_memory_default_counterexample :
    constructorEnginePath "/app/module" none = none
    ∧ ¬ opensInMemory (constructorEnginePath "/app/module" none)
    ∧ constructorEnginePath "/app/module" none
        ≠ some (DatabaseFilePath "/app/module") := by
  refine ⟨rfl, ?_, ?_⟩
  · decide
  · intro h
    simp [constructorEnginePath, staticStringProperty] at h

/-- Claim C3 as amended: when the constructor is called without a file
path (or with the empty string, which is falsy), the fallback property
lookup `MyDatabase.DATABASE_FILE_PATH` yields `undefined` — the class
exposes the default path only under the getter name `DatabaseFilePath` —
so the engine receives no path at all, and in particular no in-memory
database is requested; when a non-empty file path is provided, the engine
receives exactly that path (in-memory exactly for `:memory:`). -/
theorem c3_constructor_path_amended (dirname : String) (filePath : String)
    (hfp : filePath ≠ "") :
    constructorEnginePath dirname none = none
    ∧ constructorEnginePath dirname (some "") = none
    ∧ constructorEnginePath dirname (some filePath) = some filePath
    ∧ staticStringProperty dirname "DATABASE_FILE_PATH" = none
    ∧ staticStringProperty dirname "DatabaseFilePath"
        = some (dirname ++ "/my_database.db")
    ∧ (opensInMemory (constructorEnginePath dirname (some filePath))
        ↔ filePath = ":memory:") := by
  refine ⟨rfl, rfl, ?_, rfl, rfl, ?_⟩
  · simp [constructorEnginePath, hfp]
  · unfold opensInMemory constructorEnginePath
    simp [hfp]

/-- Witness for the amended C3 at a concrete directory and path. -/
theorem c3_constructor_path_amended_witness :
    ("data/app.db" : String) ≠ ""
    ∧ (constructorEnginePath "/app/module" none = none
        ∧ constructorEnginePath "/app/module" (some "") = none
        ∧ constructorEnginePath "/app/module" (some "data/app.db")
            = some "data/app.db"
        ∧ staticStringProperty "/app/module" "DATABASE_FILE_PATH" = none
        ∧ staticStringProperty "/app/module" "DatabaseFilePath"
            = some ("/app/module" ++ "/my_database.db")
        ∧ (opensInMemory (constructorEnginePath "/app/module" (some "data/app.db"))
            ↔ ("data/app.db" : String) = ":memory:")) :=
  ⟨by decide, c3_constructor_path_amended "/app/module" "data/app.db" (by decide)⟩

/-- Claim C8: the statement `createTable` emits is
`CREATE TABLE IF NOT EXISTS ...`, and running it twice with the same name
and definitions cannot fail: the first run succeeds, and the second run
succeeds while leaving the engine state exactly as the first run left it
(the `IF NOT EXISTS` semantics make the second run a no-op). -/
theorem c8_create_table_idempotent {α : Type} (s : DBState α) (tableName : String)
    (defs : List String) (schema : List (String × String)) :
    (createTableRun s tableName schema).2 = .ok ()
    ∧ createTableRun (createTableRun s tableName schema).1 tableName schema
        = ((createTableRun s tableName schema).1, .ok ())
    ∧ ∃ rest, createTableQuery tableName defs
        = "CREATE TABLE IF NOT EXISTS " ++ rest := by
  refine ⟨?_, ?_, ?_⟩
  · unfold createTableRun execCreateTable
    cases h : s.findTable tableName <;> simp [h]
  · unfold createTableRun execCreateTable
    cases h : s.findTable tableName with
    | none =>
      have hfound : (DBState.mk (α := α)
          (s.tables ++ [⟨tableName, schema, []⟩])).findTable tableName
            = some ⟨tableName, schema, []⟩ := by
        unfold DBState.findTable at h ⊢
        rw [List.find?_append, h]
        simp
      simp only [h, hfound]
    | some tbl =>
      simp only [h]
  · exact ⟨tableName ++ (" (" ++ (String.intercalate ", " defs ++ ")")),
      by simp [createTableQuery, String.append_assoc]⟩

/-- Claim C9: `getTableColumns` resolves with the empty sequence for a
table name the engine's catalog does not contain (the pragma returns no
rows and the callback resolves, it does not reject), and for an existing
table it resolves with one `(name, type)` entry per declared column, in
declared order. -/
theorem c9_table_columns {α : Type} (s : DBState α) (tableName : String) :
    (s.findTable tableName = none →
      getTableColumnsRun s tableName = .ok [])
    ∧ (∀ tbl : EngineTable α, s.findTable tableName = some tbl →
        getTableColumnsRun s tableName
          = .ok (tbl.schema.map (fun column => (column.1, column.2)))) := by
  constructor
  · intro h
    unfold getTableColumnsRun pragmaTableInfo
    rw [h]
    rfl
  · intro tbl h
    unfold getTableColumnsRun pragmaTableInfo
    rw [h]
    rfl

/-- Witness for C9 at a concrete engine state holding one table `users`:
an unknown name resolves with the empty sequence, and `users` resolves
with its two declared columns in order. -/
theorem c9_table_columns_witness :
    getTableColumnsRun
        (⟨[⟨"users", [("id", "INTEGER"), ("name", "TEXT")], []⟩]⟩ : DBState String)
        "missing" = .ok []
    ∧ getTableColumnsRun
        (⟨[⟨"users", [("id", "INTEGER"), ("name", "TEXT")], []⟩]⟩ : DBState String)
        "users" = .ok [("id", "INTEGER"), ("name", "TEXT")] :=
  ⟨(c9_table_columns
      (⟨[⟨"users", [("id", "INTEGER"), ("name", "TEXT")], []⟩]⟩ : DBState String)
      "missing").1 (by decide),
   (c9_table_columns
      (⟨[⟨"users", [("id", "INTEGER"), ("name", "TEXT")], []⟩]⟩ : DBState String)
      "users").2 ⟨"users", [("id", "INTEGER"), ("name", "TEXT")], []⟩ (by decide)⟩

/-- Claim C2: inserting a row mapping into a table whose declared columns
cover the row's keys and then selecting from that table yields the rows
already stored followed by a new row whose field for each inserted key is
exactly the inserted value — the values reach storage through positional
parameter binding, so this holds for every value of every type `α`,
including strings full of quotes and SQL text. -/
theorem c2_insert_select_roundtrip {α : Type} (s : DBState α) (tableName : String)
    (tbl : EngineTable α) (row : List (String × α))
    (hfind : s.findTable tableName = some tbl)
    (hkeys : ∀ k ∈ row.map Prod.fst, ∃ c ∈ tbl.schema, c.1 = k)
    (hnodup : (row.map Prod.fst).Nodup) :
    ∃ newRow : List (String × Option α),
      (insertRowsRun s tableName [row]).2 = .ok ()
      ∧ selectRowsRun (insertRowsRun s tableName [row]).1 tableName
          = .ok (tbl.rows ++ [newRow])
      ∧ ∀ kv ∈ row, newRow.lookup kv.1 = some (some kv.2) := by
  have hall : (row.map Prod.fst).all
      (fun k => tbl.schema.any (fun c => c.1 = k)) = true := by
    rw [List.all_eq_true]
    intro k hk
    rcases hkeys k hk with ⟨c, hc, hck⟩
    rw [List.any_eq_true]
    exact ⟨c, hc, by simp [hck]⟩
  have hlen : ((row.map Prod.fst).length == (row.map Prod.snd).length) = true := by
    simp
  have hexec : execInsert s tableName (row.map Prod.fst) (row.map Prod.snd)
      = (⟨s.tables.map (fun tb =>
            if tb.name = tableName then
              ⟨tb.name, tb.schema,
                tb.rows ++ [tbl.schema.map (fun c => (c.1, row.lookup c.1))]⟩
            else tb)⟩,
          .ok ()) := by
    unfold execInsert
    rw [hfind]
    simp only [hall, hlen, Bool.and_self, if_pos, zip_keys_values]
  have hrun : insertRowsRun s tableName [row]
      = (⟨s.tables.map (fun tb =>
            if tb.name = tableName then
              ⟨tb.name, tb.schema,
                tb.rows ++ [tbl.schema.map (fun c => (c.1, row.lookup c.1))]⟩
            else tb)⟩,
          .ok ()) := by
    unfold insertRowsRun
    simp only [List.foldl_cons, List.foldl_nil, hexec]
    rfl
  refine ⟨tbl.schema.map (fun c => (c.1, row.lookup c.1)), ?_, ?_, ?_⟩
  · rw [hrun]
  · rw [hrun]
    unfold selectRowsRun execSelectAll DBState.findTable
    rw [findTable_after_insert s.tables tableName
      (tbl.schema.map (fun c => (c.1, row.lookup c.1))) tbl hfind]
  · intro kv hkv
    have hmemk : kv.1 ∈ row.map Prod.fst := List.mem_map.mpr ⟨kv, hkv, rfl⟩
    rw [lookup_map_of_key_mem tbl.schema (fun k => row.lookup k) kv.1
      (hkeys kv.1 hmemk)]
    rw [lookup_of_mem_nodup row kv.1 kv.2 hkv hnodup]

/-- Witness for C2: a fresh `users(id INTEGER, name TEXT)` table and a row
whose value is a double-quoted SQL-injection attempt; the select returns a
row whose `name` field is that exact string. -/
theorem c2_insert_select_roundtrip_witness :
    ((⟨[⟨"users", [("id", "INTEGER"), ("name", "TEXT")], []⟩]⟩ : DBState String).findTable
        "users" = some ⟨"users", [("id", "INTEGER"), ("name", "TEXT")], []⟩)
    ∧ (∀ k ∈ ([("name", "Robert\"; DROP TABLE users; --")] :
          List (String × String)).map Prod.fst,
        ∃ c ∈ [("id", "INTEGER"), ("name", "TEXT")], c.1 = k)
    ∧ (([("name", "Robert\"; DROP TABLE users; --")] :
          List (String × String)).map Prod.fst).Nodup
    ∧ ∃ newRow : List (String × Option String),
        (insertRowsRun (⟨[⟨"users", [("id", "INTEGER"), ("name", "TEXT")], []⟩]⟩ : DBState String)
            "users" [[("name", "Robert\"; DROP TABLE users; --")]]).2 = .ok ()
        ∧ selectRowsRun
            (insertRowsRun (⟨[⟨"users", [("id", "INTEGER"), ("name", "TEXT")], []⟩]⟩ : DBState String)
              "users" [[("name", "Robert\"; DROP TABLE users; --")]]).1 "users"
            = .ok ([] ++ [newRow])
        ∧ ∀ kv ∈ ([("name", "Robert\"; DROP TABLE users; --")] :
            List (String × String)),
            newRow.lookup kv.1 = some (some kv.2) :=
  ⟨by decide, by decide, by decide,
    c2_insert_select_roundtrip
      (⟨[⟨"users", [("id", "INTEGER"), ("name", "TEXT")], []⟩]⟩ : DBState String)
      "users" ⟨"users", [("id", "INTEGER"), ("name", "TEXT")], []⟩
      [("name", "Robert\"; DROP TABLE users; --")]
      (by decide) (by decide) (by decide)⟩

end MyDatabase
